import Mathlib

/-!
Verification of the xpart particle-ensemble kernels and the filling-scheme
partitioner, as a shallow embedding in Lean.

The per-particle physics kernels are translated from the C sources embedded
in `src/xpart/particles/particles.py` (`global_aperture_check`,
`LocalParticle_add_to_energy`, `LocalParticle_update_p0c`,
`LocalParticle_kill_particle`).  Double-precision arithmetic is modelled by
real arithmetic.  Accessors and the two dependent-update routines
(`LocalParticle_update_delta`, `LocalParticle_update_ptau`) live in the
base class, whose file is not part of the sources at hand; they are
modelled from the spec and from the defining relations listed in the class
docstring of `particles.py` (delta = (Pc m0/m - p0c)/p0c,
ptau = (E m0/m - E0)/p0c, pzeta = ptau/beta0, rvv = beta/beta0,
rpp = 1/(1+delta)).
-/

namespace Xpart

/-- The per-particle slot of the structure-of-arrays particle ensemble,
with the fields listed in the docstring of `Particles` in
`src/xpart/particles/particles.py`.  Floating-point fields are reals,
integer fields are integers; the spec's construction default (0) is the
default value of every field. -/
structure LocalParticle where
  mass0 : ℝ := 0
  q0 : ℝ := 0
  p0c : ℝ := 0
  gamma0 : ℝ := 0
  beta0 : ℝ := 0
  s : ℝ := 0
  x : ℝ := 0
  y : ℝ := 0
  px : ℝ := 0
  py : ℝ := 0
  zeta : ℝ := 0
  delta : ℝ := 0
  ptau : ℝ := 0
  pzeta : ℝ := 0
  rvv : ℝ := 0
  rpp : ℝ := 0
  mass_ratio : ℝ := 0
  chi : ℝ := 0
  charge_ratio : ℝ := 0
  weight : ℝ := 0
  state : ℤ := 0
  particle_id : ℤ := 0
  parent_particle_id : ℤ := 0
  at_turn : ℤ := 0
  at_element : ℤ := 0

/-- Modelled from the spec: the generated accessor `LocalParticle_set_x`. -/
def LocalParticle_set_x (p : LocalParticle) (v : ℝ) : LocalParticle := { p with x := v }

/-- Modelled from the spec: the generated accessor `LocalParticle_set_y`. -/
def LocalParticle_set_y (p : LocalParticle) (v : ℝ) : LocalParticle := { p with y := v }

/-- Modelled from the spec: the generated accessor `LocalParticle_set_px`. -/
def LocalParticle_set_px (p : LocalParticle) (v : ℝ) : LocalParticle := { p with px := v }

/-- Modelled from the spec: the generated accessor `LocalParticle_set_py`. -/
def LocalParticle_set_py (p : LocalParticle) (v : ℝ) : LocalParticle := { p with py := v }

/-- Modelled from the spec: the generated accessor `LocalParticle_set_zeta`. -/
def LocalParticle_set_zeta (p : LocalParticle) (v : ℝ) : LocalParticle := { p with zeta := v }

/-- Modelled from the spec: the generated accessor `LocalParticle_set_state`. -/
def LocalParticle_set_state (p : LocalParticle) (v : ℤ) : LocalParticle := { p with state := v }

/-- Modelled from the spec: the generated accessor `LocalParticle_set_p0c`. -/
def LocalParticle_set_p0c (p : LocalParticle) (v : ℝ) : LocalParticle := { p with p0c := v }

/-- Modelled from the spec: the generated accessor `LocalParticle_set_gamma0`. -/
def LocalParticle_set_gamma0 (p : LocalParticle) (v : ℝ) : LocalParticle := { p with gamma0 := v }

/-- Modelled from the spec: the generated accessor `LocalParticle_set_beta0`. -/
def LocalParticle_set_beta0 (p : LocalParticle) (v : ℝ) : LocalParticle := { p with beta0 := v }

/-- Modelled from the spec: the generated scaling accessor
`LocalParticle_scale_px` (multiplies `px` by the factor). -/
def LocalParticle_scale_px (p : LocalParticle) (f : ℝ) : LocalParticle := { p with px := p.px * f }

/-- Modelled from the spec: the generated scaling accessor
`LocalParticle_scale_py` (multiplies `py` by the factor). -/
def LocalParticle_scale_py (p : LocalParticle) (f : ℝ) : LocalParticle := { p with py := p.py * f }

/-- Modelled from the spec: the generated scaling accessor
`LocalParticle_scale_zeta` (multiplies `zeta` by the factor). -/
def LocalParticle_scale_zeta (p : LocalParticle) (f : ℝ) : LocalParticle :=
  { p with zeta := p.zeta * f }

/-- Modelled from the spec: `LocalParticle_update_delta` (base class, not in
the sources at hand).  Per the spec it "recomputes `ptau`, `pzeta`, `rvv`,
`rpp` from `new_delta`, `beta0`" using the defining relations of the class
docstring; solving those relations for the dependents (the mass ratio
cancels) gives, with b = beta0 and d = new_delta:
ptau·b = sqrt(d²b² + 2db·b + 1) - 1, rvv = (1+d)/(1+ptau·b),
rpp = 1/(1+d), pzeta = ptau/b. -/
noncomputable def LocalParticle_update_delta (p : LocalParticle) (new_delta : ℝ) : LocalParticle :=
  let beta0 := p.beta0
  let delta_beta0 := new_delta * beta0
  let ptau_beta0 := Real.sqrt (delta_beta0 * delta_beta0 + 2 * delta_beta0 * beta0 + 1) - 1
  let one_plus_delta := 1 + new_delta
  let rvv := one_plus_delta / (1 + ptau_beta0)
  let rpp := 1 / one_plus_delta
  let ptau := ptau_beta0 / beta0
  { p with delta := new_delta, rvv := rvv, rpp := rpp, ptau := ptau, pzeta := ptau / beta0 }

/-- Modelled from the spec: `LocalParticle_update_ptau` (base class, not in
the sources at hand); the dependent recomputation that keeps `delta`,
`pzeta`, `rvv`, `rpp` consistent with a new `ptau` per the defining
relations of the class docstring.  With b = beta0 and t = new_ptau:
1 + delta = sqrt(t² + 2t/b + 1), rpp = 1/(1+delta),
rvv = (1+delta)/(1+t·b), pzeta = t/b. -/
noncomputable def LocalParticle_update_ptau (p : LocalParticle) (new_ptau : ℝ) : LocalParticle :=
  let beta0 := p.beta0
  let ptau := new_ptau
  let irpp := Real.sqrt (ptau * ptau + 2 * ptau / beta0 + 1)
  let new_delta := irpp - 1
  let new_rpp := 1 / irpp
  let new_rvv := (1 + new_delta) / (1 + ptau * beta0)
  { p with delta := new_delta, rvv := new_rvv, rpp := new_rpp, ptau := ptau,
           pzeta := ptau / beta0 }

/-- `LocalParticle_add_to_energy`, translated line by line from the C source
in `src/xpart/particles/particles.py` (the spec's
`add_to_energy(delta_energy, transverse_only)`; the C flag is `pz_only`). -/
noncomputable def LocalParticle_add_to_energy (p : LocalParticle) (delta_energy : ℝ)
    (pz_only : Bool) : LocalParticle :=
  let ptau := p.ptau
  let p0c := p.p0c
  let ptau1 := ptau + delta_energy / p0c
  let old_rpp := p.rpp
  let q := LocalParticle_update_ptau p ptau1
  if pz_only then q
  else
    let new_rpp := q.rpp
    let f := old_rpp / new_rpp
    LocalParticle_scale_py (LocalParticle_scale_px q f) f

/-- `LocalParticle_update_p0c`, translated line by line from the C source in
`src/xpart/particles/particles.py` (the spec's
`update_reference_momentum(new_p0c)`). -/
noncomputable def LocalParticle_update_p0c (p : LocalParticle) (new_p0c_value : ℝ) :
    LocalParticle :=
  let mass0 := p.mass0
  let old_p0c := p.p0c
  let old_delta := p.delta
  let old_beta0 := p.beta0
  let ppc := old_p0c * old_delta + old_p0c
  let new_delta := (ppc - new_p0c_value) / new_p0c_value
  let new_energy0 := Real.sqrt (new_p0c_value * new_p0c_value + mass0 * mass0)
  let new_beta0 := new_p0c_value / new_energy0
  let new_gamma0 := new_energy0 / mass0
  let p1 := LocalParticle_set_beta0
    (LocalParticle_set_gamma0 (LocalParticle_set_p0c p new_p0c_value) new_gamma0) new_beta0
  let p2 := LocalParticle_update_delta p1 new_delta
  let p3 := LocalParticle_scale_py
    (LocalParticle_scale_px p2 (old_p0c / new_p0c_value)) (old_p0c / new_p0c_value)
  LocalParticle_scale_zeta p3 (new_beta0 / old_beta0)

/-- `LocalParticle_kill_particle`, translated line by line from the C source
in `src/xpart/particles/particles.py` (the spec's `kill(kill_state)`). -/
noncomputable def LocalParticle_kill_particle (p : LocalParticle) (kill_state : ℤ) :
    LocalParticle :=
  let p1 := LocalParticle_set_zeta
    (LocalParticle_set_py (LocalParticle_set_y
      (LocalParticle_set_px (LocalParticle_set_x p 1e30) 1e30) 1e30) 1e30) 1e30
  let p2 := LocalParticle_update_delta p1 (-1)
  LocalParticle_set_state p2 kill_state

/-- Modelled from the spec: the per-particle dispatch emitted by the Kernel
Source Generator (`//start_per_particle_block (part0->part)` expansion, not
in the sources at hand).  It applies the routine body to each alive slot
(`state > 0`); the spec's aperture contract is stated "for each alive
particle" and the source comment inside `global_aperture_check` records the
same assumption, so lost slots are skipped. -/
def per_particle_block (body : LocalParticle → LocalParticle) (ps : List LocalParticle) :
    List LocalParticle :=
  ps.map (fun p => if 0 < p.state then body p else p)

/-- The body of `global_aperture_check`, translated from the C source in
`src/xpart/particles/particles.py`: the particle survives when
-limit ≤ x ≤ limit and -limit ≤ y ≤ limit, and is marked `state = -1`
otherwise. -/
noncomputable def global_aperture_check_body (limit : ℝ) (p : LocalParticle) : LocalParticle :=
  let x := p.x
  let y := p.y
  if -limit ≤ x ∧ x ≤ limit ∧ -limit ≤ y ∧ y ≤ limit then p
  else LocalParticle_set_state p (-1)

/-- `global_aperture_check` over the whole ensemble: the per-particle body
dispatched by the generated per-particle block. -/
noncomputable def global_aperture_check (limit : ℝ) (ps : List LocalParticle) :
    List LocalParticle :=
  per_particle_block (global_aperture_check_body limit) ps

/-- Modelled from the spec: the per-particle kernel contract ("it only
writes to that particle's own slots, never another's") lifts
`LocalParticle_kill_particle` on one targeted slot to the ensemble. -/
noncomputable def kill_at (ps : List LocalParticle) (i : ℕ) (code : ℤ) : List LocalParticle :=
  ps.set i (match ps[i]? with
    | some p => LocalParticle_kill_particle p code
    | none => {})

/-! ### Filling Scheme Partitioner

The `FillingScheme` class itself is not among the sources at hand; only its
caller `src/examples/particles_generation/007_multi_bunch_beam.py` is.  The
partitioner below is modelled from the spec (sections 4.3 and 6), checked
against that example. -/

/-- Modelled from the spec: the ascending list of filled slots of the
occupancy pattern (indices with a nonzero entry). -/
def filled_slots (arr : List Bool) : List ℕ :=
  arr.enum.filterMap (fun ib => if ib.2 then some ib.1 else none)

/-- Modelled from the spec: block sizes per rank, `floor(B/R)` each with the
`B mod R` remainder distributed one extra bunch to the first `B mod R`
ranks. -/
def rank_sizes (B R : ℕ) : List ℕ :=
  (List.range R).map (fun r => B / R + if r < B % R then 1 else 0)

/-- Contiguous blocks of consecutive bunch indices starting at `start`, one
block per requested size. -/
def blocks_from (start : ℕ) : List ℕ → List (List ℕ)
  | [] => []
  | n :: rest => (List.range n).map (start + ·) :: blocks_from (start + n) rest

/-- Modelled from the spec: `bunches_per_rank`, the contiguous balanced
partition of the bunch indices `0..B-1` over `R` ranks. -/
def bunches_per_rank (B R : ℕ) : List (List ℕ) :=
  blocks_from 0 (rank_sizes B R)

/-- Modelled from the spec: whether the occupancy pattern holds two filled
slots closer than the minimum bunch spacing.  Distances are measured in
buckets: slot `i` of the pattern sits at bucket `i * spacing` (in the
source example a 3564-slot pattern with spacing 10 describes harmonic
number 35640, and its adjacent filled slots are accepted), so two distinct
filled slots violate the constraint when their bucket distance is below
`spacing`. -/
def spacing_violation (spacing : ℕ) (arr : List Bool) : Bool :=
  let positions := (filled_slots arr).map (· * spacing)
  (positions.zip positions.tail).any (fun ab => decide (ab.2 - ab.1 < spacing))

/-- Modelled from the spec: the `ConfigError` taxonomy of the filling-scheme
construction. -/
inductive ConfigError where
  | spacingViolation : ConfigError
  | nonPositiveRanks : ConfigError
  deriving DecidableEq

/-- Modelled from the spec: `FillingScheme` construction.  It validates the
rank count and the spacing constraint and, on success, returns
`bunches_per_rank`; on failure no partition is produced (all-or-nothing). -/
def FillingScheme (bunch_spacing_in_buckets : ℕ) (filling_scheme_array : List Bool)
    (n_ranks : ℤ) : Except ConfigError (List (List ℕ)) :=
  if n_ranks ≤ 0 then Except.error ConfigError.nonPositiveRanks
  else if spacing_violation bunch_spacing_in_buckets filling_scheme_array then
    Except.error ConfigError.spacingViolation
  else Except.ok (bunches_per_rank (filled_slots filling_scheme_array).length n_ranks.toNat)

/-- The occupancy pattern of the source example: 3564 slots, the first 100
filled. -/
def example_filling_array : List Bool :=
  (List.range 3564).map (fun i => decide (i < 100))

/-! ### Theorems -/

/-- The slot `i` view of `global_aperture_check`. -/
lemma global_aperture_check_getElem (limit : ℝ) (ps : List LocalParticle) (i : ℕ) :
    (global_aperture_check limit ps)[i]?
      = Option.map (fun p => if 0 < p.state then global_aperture_check_body limit p else p)
          ps[i]? := by
  simp [global_aperture_check, per_particle_block, List.getElem?_map]

/-- The survival condition of the aperture body, written with absolute
values. -/
lemma aperture_condition_abs (limit x y : ℝ) :
    (-limit ≤ x ∧ x ≤ limit ∧ -limit ≤ y ∧ y ≤ limit) ↔ (|x| ≤ limit ∧ |y| ≤ limit) := by
  rw [abs_le, abs_le]
  tauto

/-- C4: a particle whose state is already non-positive before the call is
left whole by `global_aperture_check`, whatever its coordinates; in
particular its state never becomes positive. -/
theorem aperture_check_preserves_lost_state (ps : List LocalParticle) (limit : ℝ) (i : ℕ)
    (p : LocalParticle) (hp : ps[i]? = some p) (hlost : p.state ≤ 0) :
    (global_aperture_check limit ps)[i]? = some p ∧
    ∀ q, (global_aperture_check limit ps)[i]? = some q → q.state ≤ 0 := by
  have hq := global_aperture_check_getElem limit ps i
  rw [hp] at hq
  simp only [Option.map_some', if_neg (not_lt.2 hlost)] at hq
  refine ⟨hq, fun q hsome => ?_⟩
  rw [hq] at hsome
  cases hsome
  exact hlost

/-- Witness for C4 at a concrete lost particle parked at the sentinel
coordinates. -/
noncomputable def pLostTest : LocalParticle := { x := 1e30, y := 1e30, state := -5 }

theorem aperture_check_preserves_lost_state_witness :
    ([pLostTest][0]? = some pLostTest) ∧ pLostTest.state ≤ 0 ∧
    ((global_aperture_check 1 [pLostTest])[0]? = some pLostTest ∧
      ∀ q, (global_aperture_check 1 [pLostTest])[0]? = some q → q.state ≤ 0) := by
  have h := aperture_check_preserves_lost_state [pLostTest] 1 0 pLostTest rfl
    (by norm_num [pLostTest])
  exact ⟨rfl, by norm_num [pLostTest], h⟩

/-- C5: an alive particle is marked `state = -1` exactly when it is outside
the aperture limit in `x` or `y`, and is left whole otherwise (no other
field changes: the marked particle is `LocalParticle_set_state p (-1)`). -/
theorem aperture_check_marks_alive_particle (ps : List LocalParticle) (limit : ℝ) (i : ℕ)
    (p : LocalParticle) (hp : ps[i]? = some p) (halive : 0 < p.state) :
    ((limit < |p.x| ∨ limit < |p.y|) →
        (global_aperture_check limit ps)[i]? = some (LocalParticle_set_state p (-1))) ∧
    (|p.x| ≤ limit ∧ |p.y| ≤ limit →
        (global_aperture_check limit ps)[i]? = some p) := by
  have hq := global_aperture_check_getElem limit ps i
  rw [hp] at hq
  simp only [Option.map_some', if_pos halive] at hq
  constructor
  · intro hout
    rw [hq]
    have hneg : ¬(-limit ≤ p.x ∧ p.x ≤ limit ∧ -limit ≤ p.y ∧ p.y ≤ limit) := by
      rw [aperture_condition_abs]
      rcases hout with h | h
      · exact fun hc => absurd hc.1 (not_le.2 h)
      · exact fun hc => absurd hc.2 (not_le.2 h)
    simp [global_aperture_check_body, if_neg hneg]
  · intro hin
    rw [hq]
    have hpos := (aperture_condition_abs limit p.x p.y).mpr hin
    simp [global_aperture_check_body, if_pos hpos]

/-- C3: `kill(code)` on slot `i` sets `x`, `px`, `y`, `py`, `zeta` to the
sentinel `1e30`, sets `delta` to `-1` through `update_delta` (the recomputed
`ptau` is the update_delta value at `-1` with the particle's `beta0`), sets
`state` to the non-positive `code`, and leaves every other slot whole. -/
theorem kill_sets_sentinels_and_state (ps : List LocalParticle) (i : ℕ) (code : ℤ)
    (p : LocalParticle) (hp : ps[i]? = some p) (_hcode : code ≤ 0) :
    (∀ j, j ≠ i → (kill_at ps i code)[j]? = ps[j]?) ∧
    ∃ q, (kill_at ps i code)[i]? = some q ∧
      q.x = 1e30 ∧ q.px = 1e30 ∧ q.y = 1e30 ∧ q.py = 1e30 ∧ q.zeta = 1e30 ∧
      q.delta = -1 ∧
      q.ptau = (Real.sqrt (1 - p.beta0 * p.beta0) - 1) / p.beta0 ∧
      q.state = code := by
  have hlen : i < ps.length := by
    by_contra hcon
    rw [List.getElem?_eq_none (le_of_not_lt hcon)] at hp
    cases hp
  constructor
  · intro j hj
    simp [kill_at, List.getElem?_set_ne (Ne.symm hj)]
  · refine ⟨LocalParticle_kill_particle p code, ?_, ?_, ?_, ?_, ?_, ?_, ?_, ?_, ?_⟩
    · simp [kill_at, hp, List.getElem?_set, hlen]
    all_goals
      simp only [LocalParticle_kill_particle, LocalParticle_set_state, LocalParticle_set_zeta,
        LocalParticle_set_py, LocalParticle_set_y, LocalParticle_set_px, LocalParticle_set_x,
        LocalParticle_update_delta]
    · ring_nf

/-- Witness particles for C3: a two-slot ensemble. -/
noncomputable def pKillA : LocalParticle := { beta0 := 3/5, state := 1, x := 2 }

noncomputable def pKillB : LocalParticle := { beta0 := 4/5, state := 1, x := 7 }

theorem kill_sets_sentinels_and_state_witness :
    ([pKillA, pKillB][0]? = some pKillA) ∧ (-3 : ℤ) ≤ 0 ∧
    ((∀ j, j ≠ 0 → (kill_at [pKillA, pKillB] 0 (-3))[j]? = [pKillA, pKillB][j]?) ∧
      ∃ q : LocalParticle, (kill_at [pKillA, pKillB] 0 (-3))[0]? = some q ∧
        q.x = 1e30 ∧ q.px = 1e30 ∧ q.y = 1e30 ∧ q.py = 1e30 ∧ q.zeta = 1e30 ∧
        q.delta = -1 ∧
        q.ptau = (Real.sqrt (1 - pKillA.beta0 * pKillA.beta0) - 1) / pKillA.beta0 ∧
        q.state = -3) := by
  have h := kill_sets_sentinels_and_state [pKillA, pKillB] 0 (-3) pKillA rfl (by norm_num)
  exact ⟨rfl, by norm_num, h⟩

/-- Witness for C5 at a concrete alive particle outside the limit in `x`. -/
noncomputable def pAliveTest : LocalParticle := { x := 2, y := 0, state := 3 }

theorem aperture_check_marks_alive_particle_witness :
    ([pAliveTest][0]? = some pAliveTest) ∧ 0 < pAliveTest.state ∧
    (((1 : ℝ) < |pAliveTest.x| ∨ (1 : ℝ) < |pAliveTest.y|) →
        (global_aperture_check 1 [pAliveTest])[0]?
          = some (LocalParticle_set_state pAliveTest (-1))) ∧
    (|pAliveTest.x| ≤ 1 ∧ |pAliveTest.y| ≤ 1 →
        (global_aperture_check 1 [pAliveTest])[0]? = some pAliveTest) := by
  have h := aperture_check_marks_alive_particle [pAliveTest] 1 0 pAliveTest rfl
    (by norm_num [pAliveTest])
  exact ⟨rfl, by norm_num [pAliveTest], h.1, h.2⟩

/-- C2: `add_to_energy(delta_energy, pz_only)` increments `ptau` by exactly
`delta_energy / p0c`; with `pz_only` false it scales `px` and `py` by the
ratio of the `rpp` read before the `ptau` update to the `rpp` after it;
with `pz_only` true it leaves `px` and `py` unchanged. -/
theorem add_to_energy_increments_ptau (p : LocalParticle) (delta_energy : ℝ) (pz_only : Bool) :
    (LocalParticle_add_to_energy p delta_energy pz_only).ptau
      = p.ptau + delta_energy / p.p0c ∧
    (pz_only = true →
      (LocalParticle_add_to_energy p delta_energy pz_only).px = p.px ∧
      (LocalParticle_add_to_energy p delta_energy pz_only).py = p.py) ∧
    (pz_only = false →
      (LocalParticle_add_to_energy p delta_energy pz_only).px
        = p.px * (p.rpp / (LocalParticle_update_ptau p (p.ptau + delta_energy / p.p0c)).rpp) ∧
      (LocalParticle_add_to_energy p delta_energy pz_only).py
        = p.py * (p.rpp / (LocalParticle_update_ptau p (p.ptau + delta_energy / p.p0c)).rpp)) := by
  cases pz_only <;>
    simp [LocalParticle_add_to_energy, LocalParticle_update_ptau, LocalParticle_scale_px,
      LocalParticle_scale_py]

/-- C10: `LocalParticle_update_p0c` leaves every field other than `p0c`,
`gamma0`, `beta0`, `delta` and its dependents (`ptau`, `pzeta`, `rvv`,
`rpp`), `px`, `py` and `zeta` unchanged: in particular `mass0`, `x`, `y`,
`state`, `particle_id`, `at_turn`, `at_element` and `weight`. -/
theorem update_p0c_frame (p : LocalParticle) (v : ℝ) :
    (LocalParticle_update_p0c p v).mass0 = p.mass0 ∧
    (LocalParticle_update_p0c p v).q0 = p.q0 ∧
    (LocalParticle_update_p0c p v).s = p.s ∧
    (LocalParticle_update_p0c p v).x = p.x ∧
    (LocalParticle_update_p0c p v).y = p.y ∧
    (LocalParticle_update_p0c p v).mass_ratio = p.mass_ratio ∧
    (LocalParticle_update_p0c p v).chi = p.chi ∧
    (LocalParticle_update_p0c p v).charge_ratio = p.charge_ratio ∧
    (LocalParticle_update_p0c p v).weight = p.weight ∧
    (LocalParticle_update_p0c p v).state = p.state ∧
    (LocalParticle_update_p0c p v).particle_id = p.particle_id ∧
    (LocalParticle_update_p0c p v).parent_particle_id = p.parent_particle_id ∧
    (LocalParticle_update_p0c p v).at_turn = p.at_turn ∧
    (LocalParticle_update_p0c p v).at_element = p.at_element :=
  ⟨rfl, rfl, rfl, rfl, rfl, rfl, rfl, rfl, rfl, rfl, rfl, rfl, rfl, rfl⟩

/-- Counterexample input for C1: an on-momentum particle (`delta = 0`) with
`p0c = 2`, whose reference momentum is halved to 1. -/
noncomputable def pCex : LocalParticle := { p0c := 2 }

/-- Counterexample for C1 as stated: `update_p0c` does not rescale `delta`
by `old_p0c / new_p0c` (here that would leave `delta = 0`; the code gives
`delta = 1`, rescaling `1 + delta` instead). -/
theorem update_p0c_delta_not_rescaled :
    (LocalParticle_update_p0c pCex 1).delta ≠ pCex.delta * (pCex.p0c / 1) := by
  have hL : (LocalParticle_update_p0c pCex 1).delta
      = (pCex.p0c * pCex.delta + pCex.p0c - 1) / 1 := rfl
  rw [hL]
  norm_num [pCex]

/-- The particle after `update_p0c` has re-derived the reference scalars
from the new momentum `v` and `mass0` (derived energy0 `sqrt(v² + mass0²)`)
but before the per-particle rescalings. -/
noncomputable def update_p0c_scalars (p : LocalParticle) (v : ℝ) : LocalParticle :=
  { p with p0c := v,
           gamma0 := Real.sqrt (v * v + p.mass0 * p.mass0) / p.mass0,
           beta0 := v / Real.sqrt (v * v + p.mass0 * p.mass0) }

/-- C1 (amended): `update_p0c(v)` re-derives the reference quantities from
`v` and `mass0` (with derived energy0 `e = sqrt(v² + mass0²)`: `beta0 =
v/e`, `gamma0 = e/mass0`), rescales `1 + delta` (not `delta`) by
`old_p0c/v` and recomputes the dependents via `update_delta` with the new
`beta0`, rescales `px`, `py` by `old_p0c/v` and `zeta` by
`new_beta0/old_beta0`; the old values are read before mutation. -/
theorem update_p0c_amended (p : LocalParticle) (v : ℝ) (hv : v ≠ 0) :
    (LocalParticle_update_p0c p v).p0c = v ∧
    (LocalParticle_update_p0c p v).beta0 = v / Real.sqrt (v * v + p.mass0 * p.mass0) ∧
    (LocalParticle_update_p0c p v).gamma0 = Real.sqrt (v * v + p.mass0 * p.mass0) / p.mass0 ∧
    (LocalParticle_update_p0c p v).delta = (1 + p.delta) * (p.p0c / v) - 1 ∧
    (LocalParticle_update_p0c p v).px = p.px * (p.p0c / v) ∧
    (LocalParticle_update_p0c p v).py = p.py * (p.p0c / v) ∧
    (LocalParticle_update_p0c p v).zeta
      = p.zeta * ((v / Real.sqrt (v * v + p.mass0 * p.mass0)) / p.beta0) ∧
    (LocalParticle_update_p0c p v).ptau
      = (LocalParticle_update_delta (update_p0c_scalars p v)
          ((1 + p.delta) * (p.p0c / v) - 1)).ptau ∧
    (LocalParticle_update_p0c p v).pzeta
      = (LocalParticle_update_delta (update_p0c_scalars p v)
          ((1 + p.delta) * (p.p0c / v) - 1)).pzeta ∧
    (LocalParticle_update_p0c p v).rvv
      = (LocalParticle_update_delta (update_p0c_scalars p v)
          ((1 + p.delta) * (p.p0c / v) - 1)).rvv ∧
    (LocalParticle_update_p0c p v).rpp
      = (LocalParticle_update_delta (update_p0c_scalars p v)
          ((1 + p.delta) * (p.p0c / v) - 1)).rpp := by
  have hd : (p.p0c * p.delta + p.p0c - v) / v = (1 + p.delta) * (p.p0c / v) - 1 := by
    field_simp
    ring
  have hP : LocalParticle_update_delta (update_p0c_scalars p v)
      ((p.p0c * p.delta + p.p0c - v) / v)
      = LocalParticle_update_delta (update_p0c_scalars p v)
        ((1 + p.delta) * (p.p0c / v) - 1) := by
    rw [hd]
  have hdelta : (LocalParticle_update_p0c p v).delta
      = (p.p0c * p.delta + p.p0c - v) / v := rfl
  refine ⟨rfl, rfl, rfl, ?_, rfl, rfl, rfl, ?_, ?_, ?_, ?_⟩
  · rw [hdelta, hd]
  · have h1 : (LocalParticle_update_p0c p v).ptau
        = (LocalParticle_update_delta (update_p0c_scalars p v)
            ((p.p0c * p.delta + p.p0c - v) / v)).ptau := rfl
    rw [h1, hP]
  · have h2 : (LocalParticle_update_p0c p v).pzeta
        = (LocalParticle_update_delta (update_p0c_scalars p v)
            ((p.p0c * p.delta + p.p0c - v) / v)).pzeta := rfl
    rw [h2, hP]
  · have h3 : (LocalParticle_update_p0c p v).rvv
        = (LocalParticle_update_delta (update_p0c_scalars p v)
            ((p.p0c * p.delta + p.p0c - v) / v)).rvv := rfl
    rw [h3, hP]
  · have h4 : (LocalParticle_update_p0c p v).rpp
        = (LocalParticle_update_delta (update_p0c_scalars p v)
            ((p.p0c * p.delta + p.p0c - v) / v)).rpp := rfl
    rw [h4, hP]

theorem update_p0c_amended_witness :
    ((1 : ℝ) ≠ 0) ∧
    (LocalParticle_update_p0c pCex 1).delta = (1 + pCex.delta) * (pCex.p0c / 1) - 1 :=
  ⟨by norm_num, (update_p0c_amended pCex 1 (by norm_num)).2.2.2.1⟩

/-! Projection views of `LocalParticle_add_to_energy` with `pz_only =
false`, read off the definition. -/

lemma add_false_p0c (p : LocalParticle) (e : ℝ) :
    (LocalParticle_add_to_energy p e false).p0c = p.p0c := rfl

lemma add_false_beta0 (p : LocalParticle) (e : ℝ) :
    (LocalParticle_add_to_energy p e false).beta0 = p.beta0 := rfl

lemma add_false_ptau (p : LocalParticle) (e : ℝ) :
    (LocalParticle_add_to_energy p e false).ptau = p.ptau + e / p.p0c := rfl

lemma add_false_rpp (p : LocalParticle) (e : ℝ) :
    (LocalParticle_add_to_energy p e false).rpp
      = 1 / Real.sqrt ((p.ptau + e / p.p0c) * (p.ptau + e / p.p0c)
          + 2 * (p.ptau + e / p.p0c) / p.beta0 + 1) := rfl

lemma add_false_px (p : LocalParticle) (e : ℝ) :
    (LocalParticle_add_to_energy p e false).px
      = p.px * (p.rpp / (1 / Real.sqrt ((p.ptau + e / p.p0c) * (p.ptau + e / p.p0c)
          + 2 * (p.ptau + e / p.p0c) / p.beta0 + 1))) := rfl

lemma add_false_py (p : LocalParticle) (e : ℝ) :
    (LocalParticle_add_to_energy p e false).py
      = p.py * (p.rpp / (1 / Real.sqrt ((p.ptau + e / p.p0c) * (p.ptau + e / p.p0c)
          + 2 * (p.ptau + e / p.p0c) / p.beta0 + 1))) := rfl

/-- C6: a full energy kick followed by its inverse restores `ptau`, `px`
and `py` exactly in real arithmetic, for a particle whose stored `rpp` is
consistent with its `ptau` and `beta0` and whose kinematics stay physically
valid (positive square-root arguments) at both energies. -/
theorem add_to_energy_roundtrip (p : LocalParticle) (e : ℝ)
    (hrpp : p.rpp = 1 / Real.sqrt (p.ptau * p.ptau + 2 * p.ptau / p.beta0 + 1))
    (h0 : 0 < p.ptau * p.ptau + 2 * p.ptau / p.beta0 + 1)
    (h1 : 0 < (p.ptau + e / p.p0c) * (p.ptau + e / p.p0c)
        + 2 * (p.ptau + e / p.p0c) / p.beta0 + 1) :
    (LocalParticle_add_to_energy (LocalParticle_add_to_energy p e false) (-e) false).ptau
      = p.ptau ∧
    (LocalParticle_add_to_energy (LocalParticle_add_to_energy p e false) (-e) false).px
      = p.px ∧
    (LocalParticle_add_to_energy (LocalParticle_add_to_energy p e false) (-e) false).py
      = p.py := by
  have ht : p.ptau + e / p.p0c + -e / p.p0c = p.ptau := by ring
  have hs0 : Real.sqrt (p.ptau * p.ptau + 2 * p.ptau / p.beta0 + 1) ≠ 0 :=
    ne_of_gt (Real.sqrt_pos.mpr h0)
  have hs1 : Real.sqrt ((p.ptau + e / p.p0c) * (p.ptau + e / p.p0c)
      + 2 * (p.ptau + e / p.p0c) / p.beta0 + 1) ≠ 0 :=
    ne_of_gt (Real.sqrt_pos.mpr h1)
  refine ⟨?_, ?_, ?_⟩
  · simp only [add_false_ptau, add_false_p0c]
    exact ht
  · simp only [add_false_px, add_false_ptau, add_false_p0c, add_false_beta0, add_false_rpp]
    rw [ht, hrpp]
    field_simp
  · simp only [add_false_py, add_false_ptau, add_false_p0c, add_false_beta0, add_false_rpp]
    rw [ht, hrpp]
    field_simp

/-- Witness particle for C6: consistent kinematics at `beta0 = 1`,
`ptau = 0`, `rpp = 1`. -/
noncomputable def pEn : LocalParticle := { p0c := 1, beta0 := 1, rpp := 1, px := 5, py := 7 }

theorem add_to_energy_roundtrip_witness :
    (pEn.rpp = 1 / Real.sqrt (pEn.ptau * pEn.ptau + 2 * pEn.ptau / pEn.beta0 + 1)) ∧
    (0 < pEn.ptau * pEn.ptau + 2 * pEn.ptau / pEn.beta0 + 1) ∧
    (0 < (pEn.ptau + 1 / pEn.p0c) * (pEn.ptau + 1 / pEn.p0c)
        + 2 * (pEn.ptau + 1 / pEn.p0c) / pEn.beta0 + 1) ∧
    ((LocalParticle_add_to_energy (LocalParticle_add_to_energy pEn 1 false) (-1) false).ptau
        = pEn.ptau ∧
      (LocalParticle_add_to_energy (LocalParticle_add_to_energy pEn 1 false) (-1) false).px
        = pEn.px ∧
      (LocalParticle_add_to_energy (LocalParticle_add_to_energy pEn 1 false) (-1) false).py
        = pEn.py) := by
  have h := add_to_energy_roundtrip pEn 1 (by norm_num [pEn, Real.sqrt_one])
    (by norm_num [pEn]) (by norm_num [pEn])
  exact ⟨by norm_num [pEn, Real.sqrt_one], by norm_num [pEn], by norm_num [pEn], h⟩

/-! Projection views of `LocalParticle_update_p0c`, read off the
definition. -/

lemma upd_p0c_mass0 (p : LocalParticle) (v : ℝ) :
    (LocalParticle_update_p0c p v).mass0 = p.mass0 := rfl

lemma upd_p0c_p0c (p : LocalParticle) (v : ℝ) :
    (LocalParticle_update_p0c p v).p0c = v := rfl

lemma upd_p0c_beta0 (p : LocalParticle) (v : ℝ) :
    (LocalParticle_update_p0c p v).beta0
      = v / Real.sqrt (v * v + p.mass0 * p.mass0) := rfl

lemma upd_p0c_gamma0 (p : LocalParticle) (v : ℝ) :
    (LocalParticle_update_p0c p v).gamma0
      = Real.sqrt (v * v + p.mass0 * p.mass0) / p.mass0 := rfl

lemma upd_p0c_delta (p : LocalParticle) (v : ℝ) :
    (LocalParticle_update_p0c p v).delta = (p.p0c * p.delta + p.p0c - v) / v := rfl

lemma upd_p0c_px (p : LocalParticle) (v : ℝ) :
    (LocalParticle_update_p0c p v).px = p.px * (p.p0c / v) := rfl

lemma upd_p0c_py (p : LocalParticle) (v : ℝ) :
    (LocalParticle_update_p0c p v).py = p.py * (p.p0c / v) := rfl

lemma upd_p0c_zeta (p : LocalParticle) (v : ℝ) :
    (LocalParticle_update_p0c p v).zeta
      = p.zeta * (v / Real.sqrt (v * v + p.mass0 * p.mass0) / p.beta0) := rfl

/-- C7: updating the reference momentum to `v` and back restores `p0c`,
`beta0`, `gamma0`, `delta`, `px`, `py` and `zeta` exactly in real
arithmetic, for positive momenta and a particle whose stored `beta0` and
`gamma0` are consistent with its `p0c` and `mass0`. -/
theorem update_p0c_roundtrip (p : LocalParticle) (v : ℝ)
    (hp0 : 0 < p.p0c) (hv : 0 < v)
    (hb : p.beta0 = p.p0c / Real.sqrt (p.p0c * p.p0c + p.mass0 * p.mass0))
    (hg : p.gamma0 = Real.sqrt (p.p0c * p.p0c + p.mass0 * p.mass0) / p.mass0) :
    (LocalParticle_update_p0c (LocalParticle_update_p0c p v) p.p0c).p0c = p.p0c ∧
    (LocalParticle_update_p0c (LocalParticle_update_p0c p v) p.p0c).beta0 = p.beta0 ∧
    (LocalParticle_update_p0c (LocalParticle_update_p0c p v) p.p0c).gamma0 = p.gamma0 ∧
    (LocalParticle_update_p0c (LocalParticle_update_p0c p v) p.p0c).delta = p.delta ∧
    (LocalParticle_update_p0c (LocalParticle_update_p0c p v) p.p0c).px = p.px ∧
    (LocalParticle_update_p0c (LocalParticle_update_p0c p v) p.p0c).py = p.py ∧
    (LocalParticle_update_p0c (LocalParticle_update_p0c p v) p.p0c).zeta = p.zeta := by
  have hvne : v ≠ 0 := ne_of_gt hv
  have hpne : p.p0c ≠ 0 := ne_of_gt hp0
  have hargv : 0 < v * v + p.mass0 * p.mass0 := by nlinarith [mul_self_nonneg p.mass0]
  have harg0 : 0 < p.p0c * p.p0c + p.mass0 * p.mass0 := by nlinarith [mul_self_nonneg p.mass0]
  have hsv : Real.sqrt (v * v + p.mass0 * p.mass0) ≠ 0 :=
    ne_of_gt (Real.sqrt_pos.mpr hargv)
  have hs0 : Real.sqrt (p.p0c * p.p0c + p.mass0 * p.mass0) ≠ 0 :=
    ne_of_gt (Real.sqrt_pos.mpr harg0)
  refine ⟨upd_p0c_p0c _ _, ?_, ?_, ?_, ?_, ?_, ?_⟩
  · simp only [upd_p0c_beta0, upd_p0c_mass0]
    exact hb.symm
  · simp only [upd_p0c_gamma0, upd_p0c_mass0]
    exact hg.symm
  · simp only [upd_p0c_delta, upd_p0c_p0c]
    field_simp
  · simp only [upd_p0c_px, upd_p0c_p0c]
    field_simp
  · simp only [upd_p0c_py, upd_p0c_p0c]
    field_simp
  · simp only [upd_p0c_zeta, upd_p0c_beta0, upd_p0c_mass0, upd_p0c_p0c]
    rw [hb]
    field_simp
    ring

/-- Witness particle for C7: a (3, 4, 5) reference triangle,
`beta0 = 4/5`, `gamma0 = 5/3`. -/
noncomputable def pRef : LocalParticle := { mass0 := 3, p0c := 4, beta0 := 4/5, gamma0 := 5/3 }

/-- `sqrt 25 = 5`, the derived reference energy of `pRef`. -/
lemma sqrt_twentyfive : Real.sqrt (25 : ℝ) = 5 := by
  rw [show (25 : ℝ) = 5 ^ 2 by norm_num]
  exact Real.sqrt_sq (by norm_num)

theorem update_p0c_roundtrip_witness :
    (0 < pRef.p0c) ∧ (0 < (2 : ℝ)) ∧
    (pRef.beta0 = pRef.p0c / Real.sqrt (pRef.p0c * pRef.p0c + pRef.mass0 * pRef.mass0)) ∧
    (pRef.gamma0 = Real.sqrt (pRef.p0c * pRef.p0c + pRef.mass0 * pRef.mass0) / pRef.mass0) ∧
    ((LocalParticle_update_p0c (LocalParticle_update_p0c pRef 2) pRef.p0c).p0c = pRef.p0c ∧
      (LocalParticle_update_p0c (LocalParticle_update_p0c pRef 2) pRef.p0c).beta0 = pRef.beta0 ∧
      (LocalParticle_update_p0c (LocalParticle_update_p0c pRef 2) pRef.p0c).gamma0
        = pRef.gamma0 ∧
      (LocalParticle_update_p0c (LocalParticle_update_p0c pRef 2) pRef.p0c).delta = pRef.delta ∧
      (LocalParticle_update_p0c (LocalParticle_update_p0c pRef 2) pRef.p0c).px = pRef.px ∧
      (LocalParticle_update_p0c (LocalParticle_update_p0c pRef 2) pRef.p0c).py = pRef.py ∧
      (LocalParticle_update_p0c (LocalParticle_update_p0c pRef 2) pRef.p0c).zeta
        = pRef.zeta) := by
  have h := update_p0c_roundtrip pRef 2 (by norm_num [pRef]) (by norm_num)
    (by norm_num [pRef, sqrt_twentyfive]) (by norm_num [pRef, sqrt_twentyfive])
  exact ⟨by norm_num [pRef], by norm_num, by norm_num [pRef, sqrt_twentyfive],
    by norm_num [pRef, sqrt_twentyfive], h⟩

/-! Structural lemmas on the partition blocks. -/

lemma blocks_from_map_length (s : ℕ) (ns : List ℕ) :
    (blocks_from s ns).map List.length = ns := by
  induction ns generalizing s with
  | nil => rfl
  | cons n rest ih => simp [blocks_from, ih]

lemma blocks_from_join (s : ℕ) (ns : List ℕ) :
    (blocks_from s ns).flatten = (List.range ns.sum).map (s + ·) := by
  induction ns generalizing s with
  | nil => simp [blocks_from]
  | cons n rest ih =>
    simp [blocks_from, ih, List.range_add, List.map_map, Function.comp, add_assoc]

lemma const_add_ite_sum (k m : ℕ) : ∀ n : ℕ,
    ((List.range n).map (fun r => k + if r < m then 1 else 0)).sum = n * k + min m n := by
  intro n
  induction n with
  | zero => simp
  | succ n ih =>
    rw [List.range_succ]
    simp only [List.map_append, List.sum_append, List.map_cons, List.map_nil,
      List.sum_cons, List.sum_nil, ih, add_zero]
    by_cases h : n < m
    · rw [if_pos h, min_eq_right (le_of_lt h), min_eq_right (Nat.succ_le_of_lt h),
        Nat.succ_eq_add_one]
      ring
    · rw [if_neg h, min_eq_left (le_of_not_lt h),
        min_eq_left (le_trans (le_of_not_lt h) (Nat.le_succ n))]
      ring

lemma rank_sizes_sum (B R : ℕ) (hR : 0 < R) : (rank_sizes B R).sum = B := by
  rw [rank_sizes, const_add_ite_sum, min_eq_left (le_of_lt (Nat.mod_lt B hR))]
  exact Nat.div_add_mod B R

set_option maxRecDepth 100000 in
/-- C8: the partitioner assigns rank `r` a contiguous block of
`floor(B/R)` bunch indices, plus one extra for the first `B mod R` ranks;
the blocks concatenate to `0..B-1` with no gaps or repeats; and on the
source example (3564 slots, first 100 filled, spacing 10, 3 ranks) the
construction succeeds with blocks `[0..33]`, `[34..66]`, `[67..99]` whose
concatenation is `[0..99]`. -/
theorem filling_scheme_partition :
    (∀ B R : ℕ, (bunches_per_rank B R).map List.length
        = (List.range R).map (fun r => B / R + if r < B % R then 1 else 0)) ∧
    (∀ B R : ℕ, 0 < R → (bunches_per_rank B R).flatten = List.range B) ∧
    FillingScheme 10 example_filling_array 3
      = Except.ok [List.range 34, (List.range 33).map (fun k => 34 + k),
          (List.range 33).map (fun k => 67 + k)] ∧
    List.range 34 ++ ((List.range 33).map (fun k => 34 + k)
        ++ (List.range 33).map (fun k => 67 + k)) = List.range 100 := by
  refine ⟨?_, ?_, ?_, ?_⟩
  · intro B R
    exact blocks_from_map_length 0 (rank_sizes B R)
  · intro B R hR
    rw [bunches_per_rank, blocks_from_join, rank_sizes_sum B R hR]
    simp
  · have hsp : spacing_violation 10 example_filling_array = false := by decide
    have h3 : ¬((3 : ℤ) ≤ 0) := by norm_num
    rw [FillingScheme, if_neg h3, hsp]
    simp only [Bool.false_eq_true, if_false]
    exact congrArg Except.ok (by decide)
  · decide

/-- C9: construction fails (with a `ConfigError`, producing no partition)
whenever the occupancy pattern violates the minimum-spacing constraint or
the rank count is non-positive. -/
theorem filling_scheme_fails_on_invalid_config (spacing : ℕ) (arr : List Bool) (R : ℤ)
    (h : spacing_violation spacing arr = true ∨ R ≤ 0) :
    ∃ e, FillingScheme spacing arr R = Except.error e := by
  by_cases hR : R ≤ 0
  · exact ⟨ConfigError.nonPositiveRanks, by rw [FillingScheme, if_pos hR]⟩
  · rcases h with hsp | hle
    · refine ⟨ConfigError.spacingViolation, ?_⟩
      rw [FillingScheme, if_neg hR, hsp]
      simp
    · exact absurd hle hR

theorem filling_scheme_fails_witness :
    (spacing_violation 10 example_filling_array = true ∨ (0 : ℤ) ≤ 0) ∧
    ∃ e, FillingScheme 10 example_filling_array 0 = Except.error e :=
  ⟨Or.inr (by norm_num),
    filling_scheme_fails_on_invalid_config 10 example_filling_array 0 (Or.inr (by norm_num))⟩

end Xpart
